import Mathlib

/-!
Shallow embedding of the Risk Classification & Recovery Scoring Engine of
the tree_health repository (src/app.py).  Numeric values (Python ints and
floats) are modelled as rationals; SQL rows that may be absent are modelled
as `Option`-valued lookups keyed by an integer day index (one unit = one
calendar day, so the date `targetDate - 2` is the index `t - 2`).
-/

namespace TreeHealth

/-- Numeric reading of an optional column, mirroring the Python pattern
`x if x else 0`: `None` and `0` both read as `0`. -/
def tval (o : Option ℚ) : ℚ := o.getD 0

/-- Python `a if a else d` on an optional numeric value: `None` and `0`
(the falsy values) both fall back to the default `d`. -/
def pyOr (o : Option ℚ) (d : ℚ) : ℚ := if o.getD 0 = 0 then d else o.getD 0

/-- Python `round(x, 1)` modelled over ℚ (half-integer ties, where Python
rounds to even, do not occur in any fact proved below). -/
def roundTo1 (q : ℚ) : ℚ := (round (q * 10) : ℤ) / 10

/-- Python `round(x, 2)` modelled over ℚ. -/
def roundTo2 (q : ℚ) : ℚ := (round (q * 100) : ℤ) / 100

/-- Python `int(x)`: truncation toward zero. -/
def pyInt (q : ℚ) : ℤ := if 0 ≤ q then ⌊q⌋ else ⌈q⌉

/-! ### Baseline constants (Golden Era, Mar-May 2025), from src/app.py -/

def GOLDEN_RHR_MEAN : ℚ := 50.61
def GOLDEN_RHR_SD : ℚ := 1.78
def GOLDEN_STRESS_MEAN : ℚ := 35.77
def HRV_7D_FALLBACK : ℚ := 51.45
def BASELINE_RHR : ℚ := 50.6
def BASELINE_COST : ℚ := 29.0
def BASELINE_STEPS : ℚ := 4000
def BASELINE_STRESS : ℚ := 35

/-! ### Data model -/

/-- One `daily_summary` row as fetched by `calculate_metrics`
(`SELECT rhr, hr_max, bb_charged, stress_avg, steps, calories_active`). -/
structure DailyRow where
  rhr : Option ℚ
  hr_max : Option ℚ
  bb_charged : Option ℚ
  stress_avg : Option ℚ
  steps : Option ℚ
  calories_active : Option ℚ
deriving DecidableEq

/-- The flags appended by the six logic gates, one constructor per distinct
message, carrying the numeric payload the source interpolates into the
f-string (already rounded/truncated exactly as the source does). -/
inductive Flag where
  | highRHR (delta : ℚ)
  | metabolicFreeze (rhr : ℚ)
  | highIdle
  | poorRecharge (bb : ℚ)
  | unrefreshingSleep (rr : ℚ)
  | lag2Sensory
  | lag2HighLoad (day : ℤ)
  | lag2Risk (score : ℚ)
  | lag2HRSpike (day : ℤ)
  | volumeCeiling (steps : ℚ)
  | highMetabolicTax (cost : ℤ)
  | highPhysioCost (cost : ℤ)
  | inefficientMovement
deriving DecidableEq

/-- Rendering of a flag to its user-facing text.  The fixed words are those
of the source's f-strings; the numeric payload is printed with Lean's
rational printer (the engine never branches on the printed digits). -/
def Flag.render : Flag → String
  | .highRHR d => "High RHR (+" ++ toString d ++ ")"
  | .metabolicFreeze v => "Metabolic Freeze Detected (RHR " ++ toString v ++ ")"
  | .highIdle => "High Idle / Sensory Overload"
  | .poorRecharge b => "Poor Recharge (Max " ++ toString b ++ "%)"
  | .unrefreshingSleep q => "Unrefreshing Sleep (Ratio " ++ toString q ++ " < 5.0)"
  | .lag2Sensory => "Lag-2 Risk: Sensory Overload Detected"
  | .lag2HighLoad d => "Lag-2 Impact (High Load on " ++ toString d ++ ")"
  | .lag2Risk q => "Lag-2 Warning (Risk " ++ toString q ++ ")"
  | .lag2HRSpike d => "Lag 2 HR Spike (" ++ toString d ++ ")"
  | .volumeCeiling s => "Volume Ceiling Breached (" ++ toString s ++ " steps)"
  | .highMetabolicTax c => "High Metabolic Tax (Cost: " ++ toString c ++ ")"
  | .highPhysioCost c => "High Physiological Cost (" ++ toString c ++ ")"
  | .inefficientMovement => "Inefficient Movement (Shuffle)"

/-- The raw-metric map returned alongside the verdict. -/
structure MetricsOut where
  rhr : Option ℚ
  bb : Option ℚ
  physio_cost : ℚ
  steps : Option ℚ
deriving DecidableEq

/-- The dictionary returned by `calculate_metrics`.  `red_flags` and
`warnings` are the two severity lists the gates append to (the source keeps
them in local variables; they are exposed here so the verdict-composition
rules can be stated).  `metrics` is `none` exactly in the GRAY early
return, whose Python dict is empty. -/
structure Verdict where
  status : String
  reason : String
  target_steps : ℕ
  red_flags : List Flag
  warnings : List Flag
  metrics : Option MetricsOut
deriving DecidableEq

/-! ### The Risk Gate Evaluator, `calculate_metrics` -/

/-- Gate 1, the Engine: High RHR (red) else Metabolic Freeze (red),
an if/elif on the truthy `rhr` column. -/
def gate1Flags (r : DailyRow) : List Flag :=
  if tval r.rhr ≠ 0 ∧ tval r.rhr > BASELINE_RHR + 3 then
    [Flag.highRHR (roundTo1 (tval r.rhr - BASELINE_RHR))]
  else if tval r.rhr ≠ 0 ∧ tval r.rhr < BASELINE_RHR - 2.5 then
    [Flag.metabolicFreeze (tval r.rhr)]
  else []

/-- Sensory Load flag: `steps is not None and steps < 3000 and stress_avg
and stress_avg > 35` (red). -/
def idleFlags (r : DailyRow) : List Flag :=
  if r.steps.isSome ∧ r.steps.getD 0 < 3000 ∧ tval r.stress_avg > 35 then
    [Flag.highIdle]
  else []

/-- Gate 2, the Battery: `bb_charged and bb_charged < 50` (red). -/
def rechargeFlags (r : DailyRow) : List Flag :=
  if tval r.bb_charged ≠ 0 ∧ tval r.bb_charged < 50 then
    [Flag.poorRecharge (tval r.bb_charged)]
  else []

/-- Safety Ceiling (T-1) gate: volume limit 3000 steps (red), else
metabolic-tax limit cost 150 (red); skipped when the T-1 row is absent. -/
def t1Flags (o : Option DailyRow) : List Flag :=
  match o with
  | none => []
  | some r1 =>
    let s1 := tval r1.steps
    let c1 := tval r1.calories_active
    let cost := if s1 > 0 then c1 / s1 * 1000 else 0
    if s1 > 3000 then [Flag.volumeCeiling s1]
    else if cost > 150 then [Flag.highMetabolicTax (pyInt cost)]
    else []

/-- The red-flag list accumulated over the gates, in source append order. -/
def redFlagsOf (db : ℤ → Option DailyRow) (t : ℤ) (r : DailyRow) : List Flag :=
  gate1Flags r ++ idleFlags r ++ rechargeFlags r ++ t1Flags (db (t - 1))

/-- Mitochondrial-efficiency warning: recharge rate `bb_charged /
sleep_hours` below 5.0 (guarded on positive sleep and truthy battery). -/
def sleepWarn (r : DailyRow) (sleep_hours : ℚ) : List Flag :=
  if sleep_hours > 0 ∧ tval r.bb_charged ≠ 0 ∧ tval r.bb_charged / sleep_hours < 5 then
    [Flag.unrefreshingSleep (roundTo1 (tval r.bb_charged / sleep_hours))]
  else []

/-- Gate 3, the Lag-2 Predictor: an if/elif chain (sensory overload, then
high volume, then the combined risk formula) plus an independent T-2 HR
spike check; skipped entirely when the T-2 row is absent. -/
def lag2Warns (o : Option DailyRow) (dayT2 : ℤ) : List Flag :=
  match o with
  | none => []
  | some r2 =>
    let s2 := tval r2.steps
    let st2 := tval r2.stress_avg
    let risk := s2 / BASELINE_STEPS + st2 / BASELINE_STRESS
    (if st2 > 35 ∧ s2 < 3000 then [Flag.lag2Sensory]
     else if s2 > 5000 then [Flag.lag2HighLoad dayT2]
     else if risk > 1.5 then [Flag.lag2Risk (roundTo2 risk)]
     else []) ++
    (if tval r2.hr_max > 110 then [Flag.lag2HRSpike dayT2] else [])

/-- Gate 5, Physiological Cost: active calories per 1000 steps above
baseline + 20% (guarded on truthy positive steps and truthy calories). -/
def physioWarn (r : DailyRow) : List Flag :=
  if tval r.steps > 0 ∧ tval r.calories_active ≠ 0 then
    (if tval r.calories_active / tval r.steps * 1000 > BASELINE_COST * 1.2 then
      [Flag.highPhysioCost (pyInt (tval r.calories_active / tval r.steps * 1000))]
     else [])
  else []

/-- Gate 6, Movement Inefficiency: any prior-day walking/hiking activity
with truthy average cadence strictly between 0 and 95 steps/min appends one
warning (the source breaks at the first match, so at most one). -/
def moveWarn (cads : List (Option ℚ)) : List Flag :=
  if cads.any (fun c => decide (0 < tval c ∧ tval c < 95)) then
    [Flag.inefficientMovement]
  else []

/-- The warning list accumulated over the gates, in source append order. -/
def warningsOf (db : ℤ → Option DailyRow) (acts : ℤ → List (Option ℚ))
    (sleepH : ℤ → ℚ) (t : ℤ) (r : DailyRow) : List Flag :=
  sleepWarn r (sleepH t) ++ lag2Warns (db (t - 2)) (t - 2) ++ physioWarn r ++
    moveWarn (acts (t - 1))

/-- The raw-metric map of the normal return path. -/
def metricsOf (r : DailyRow) : MetricsOut :=
  { rhr := r.rhr
    bb := r.bb_charged
    physio_cost :=
      if tval r.steps > 0 ∧ tval r.calories_active ≠ 0 then
        tval r.calories_active / tval r.steps * 1000
      else 0
    steps := r.steps }

/-- The special RED message used when the Sensory Load flag fired. -/
def idleReason : String :=
  "System is idling high. Physical rest is not enough; requires sensory deprivation."

/-- Final verdict composition (the tail of `calculate_metrics`): red flags
dominate (RED, ceiling 1500, STOP message or the special sensory text),
else warnings give YELLOW with ceiling 3000, else GREEN with ceiling
4500. -/
def mkVerdict (rf ws : List Flag) (m : MetricsOut) : Verdict :=
  if rf ≠ [] then
    { status := "RED"
      reason :=
        if Flag.highIdle ∈ rf then idleReason
        else "STOP. " ++ String.intercalate ", " (rf.map Flag.render)
      target_steps := 1500
      red_flags := rf
      warnings := ws
      metrics := some m }
  else if ws ≠ [] then
    { status := "YELLOW"
      reason := "CAUTION. " ++ String.intercalate ", " (ws.map Flag.render)
      target_steps := 3000
      red_flags := rf
      warnings := ws
      metrics := some m }
  else
    { status := "GREEN"
      reason := "Go for it. Maintain pacing."
      target_steps := 4500
      red_flags := rf
      warnings := ws
      metrics := some m }

/-- The Core Logic Engine `calculate_metrics(target_date, ...)`.
`db` is the `daily_summary` table keyed by day index, `acts` yields the
average cadences of the walking/hiking activities of a day, and `sleepH`
the target day's sleep duration in hours as already parsed from the
`sleep` table (`parse_time_str(total_sleep) / 60`, zero when the row is
absent or unparsable).  A missing target row short-circuits to the GRAY
verdict; the function is total, so no evaluation can raise. -/
def calculate_metrics (db : ℤ → Option DailyRow) (acts : ℤ → List (Option ℚ))
    (sleepH : ℤ → ℚ) (t : ℤ) : Verdict :=
  match db t with
  | none =>
    { status := "GRAY", reason := "No Data", target_steps := 0
      red_flags := [], warnings := [], metrics := none }
  | some r =>
    mkVerdict (redFlagsOf db t r) (warningsOf db acts sleepH t r) (metricsOf r)

/-! ### The Recovery Scorer, `get_recovery_score` -/

/-- RHR sub-score as a function of the absolute z-score: a 100-point sweet
spot within half an SD, a linear 100-to-70 decay up to 1.5 SD, then a
steeper slope of 50 points per SD floored at 0. -/
def rhrCurve (a : ℚ) : ℚ :=
  if a ≤ 0.5 then 100
  else if a ≤ 1.5 then 100 - (a - 0.5) * 30
  else max 0 (70 - (a - 1.5) * 50)

/-- RHR sub-score of the signed z-score (the source takes `abs` first). -/
def rhrScoreOfZ (z : ℚ) : ℚ := rhrCurve |z|

/-- HRV balance sub-score of the last-night/7-day quotient: 100 inside the
0.9-1.2 band, 250 points per unit above it, 500 points per unit below it,
both branches floored at 0. -/
def hrvScoreOfR (r : ℚ) : ℚ :=
  if 0.9 ≤ r ∧ r ≤ 1.2 then 100
  else if r > 1.2 then max 0 (100 - (r - 1.2) * 250)
  else max 0 (100 - (0.9 - r) * 500)

/-- Stress sub-score of the age-corrected stress: 100 at or below the
golden-era mean, else 2 points per unit of excess, floored at 0. -/
def stressScoreOfAdj (adj : ℚ) : ℚ :=
  if adj ≤ GOLDEN_STRESS_MEAN then 100
  else max 0 (100 - (adj - GOLDEN_STRESS_MEAN) * 2)

/-- 7-day average RHR with golden-mean fallback on an empty/NULL average. -/
def currentRhrOf (o : Option ℚ) : ℚ := pyOr o GOLDEN_RHR_MEAN

/-- 7-day average HRV with the fixed golden-baseline fallback. -/
def hrv7dOf (o : Option ℚ) : ℚ := pyOr o HRV_7D_FALLBACK

/-- Last-night HRV; when absent (or 0, falsy) the 7-day average is used,
making the quotient neutral. -/
def hrvTodayOf (lastNight : Option ℚ) (h7 : ℚ) : ℚ :=
  if lastNight.getD 0 = 0 then h7 else lastNight.getD 0

/-- 7-day average stress with the fixed fallback of 30. -/
def rawStressOf (o : Option ℚ) : ℚ := pyOr o 30

/-- HRV quotient, defaulting to 1.0 on a non-positive 7-day average. -/
def hrvRelOf (today h7 : ℚ) : ℚ := if h7 > 0 then today / h7 else 1

/-- RHR z-score against the golden-era mean and SD. -/
def zOf (cur : ℚ) : ℚ := (cur - GOLDEN_RHR_MEAN) / GOLDEN_RHR_SD

/-- Adjusted (age-corrected) stress: raw times 1.15. -/
def adjStressOf (o : Option ℚ) : ℚ := rawStressOf o * 1.15

/-- The composite weighted score before the veto protocol: RHR and HRV
weighted 0.4 each, stress 0.2. -/
def rawComposite (rhr7 hrvLast hrv7 stress7 : Option ℚ) : ℚ :=
  let h7 := hrv7dOf hrv7
  rhrScoreOfZ (zOf (currentRhrOf rhr7)) * 0.4 +
    hrvScoreOfR (hrvRelOf (hrvTodayOf hrvLast h7) h7) * 0.4 +
    stressScoreOfAdj (adjStressOf stress7) * 0.2

def vetoRedMsg : String := "⚠️ Score Vetoed: System Crash Detected."

def vetoYellowMsg : String := "⚠️ Score Capped at 75% due to Caution status."

/-- The veto protocol: RED forces the score to 40, YELLOW caps it at 75;
any other status (GREEN, GRAY) leaves it untouched with no message. -/
def vetoOf (s : String) (c : ℚ) : ℚ × Option String :=
  if s = "RED" then (40, some vetoRedMsg)
  else if s = "YELLOW" then
    (if c > 75 then (75, some vetoYellowMsg) else (c, none))
  else (c, none)

/-- The dictionary returned by `get_recovery_score`: the vetoed composite
and the per-signal details, rounded exactly where the source rounds. -/
structure RecoveryScore where
  score : ℚ
  veto_msg : Option String
  rhr_val : ℚ
  rhr_z : ℚ
  rhr_score : ℚ
  hrv_val : ℚ
  hrv_7d_avg : ℚ
  hrv_rel : ℚ
  hrv_score : ℚ
  stress_raw : ℚ
  stress_adj : ℚ
  stress_score : ℚ
deriving DecidableEq

/-- `get_recovery_score(conn, daily_status, target_date)`.  The four
optional arguments are the database aggregates the source fetches first:
the 7-day average RHR, last night's HRV, the 7-day average HRV and the
7-day average stress (each `none` when the query returns NULL). -/
def get_recovery_score (daily_status : String)
    (rhr7 hrvLast hrv7 stress7 : Option ℚ) : RecoveryScore :=
  let cur := currentRhrOf rhr7
  let h7 := hrv7dOf hrv7
  let ht := hrvTodayOf hrvLast h7
  let raw := rawStressOf stress7
  let z := zOf cur
  let rs := rhrScoreOfZ z
  let hrel := hrvRelOf ht h7
  let hs := hrvScoreOfR hrel
  let adj := adjStressOf stress7
  let ss := stressScoreOfAdj adj
  let fv := vetoOf daily_status (rs * 0.4 + hs * 0.4 + ss * 0.2)
  { score := roundTo1 fv.1
    veto_msg := fv.2
    rhr_val := roundTo1 cur
    rhr_z := roundTo2 z
    rhr_score := roundTo1 rs
    hrv_val := roundTo1 ht
    hrv_7d_avg := roundTo1 h7
    hrv_rel := roundTo2 hrel
    hrv_score := roundTo1 hs
    stress_raw := roundTo1 raw
    stress_adj := roundTo1 adj
    stress_score := roundTo1 ss }

/-! ### The Trend Aggregator, `get_trend_data` -/

/-- One row of the trend query
(`SELECT day, rhr, bb_max, steps, calories_active, stress_avg ... ORDER BY day DESC`). -/
structure TRow where
  day : ℤ
  rhr : Option ℚ
  bb_max : Option ℚ
  steps : Option ℚ
  calories_active : Option ℚ
  stress_avg : Option ℚ
deriving DecidableEq

/-- Safe accessor `get_val(r, key)` for the non-HRV keys: a missing value
(`None`) reads as 0. -/
def rv (r : TRow) : ℚ := r.rhr.getD 0

def bv (r : TRow) : ℚ := r.bb_max.getD 0

def sv (r : TRow) : ℚ := r.stress_avg.getD 0

/-- Safe accessor for the HRV key: a lookup in the per-day map built from
the `hrv` table (truthy last-night values only), defaulting to 0. -/
def hv (hm : ℤ → Option ℚ) (r : TRow) : ℚ := (hm r.day).getD 0

structure TrendEntry where
  trend_7d : ℚ
  trend_3d : ℚ
  val : ℚ
deriving DecidableEq

/-- The structure returned by `get_trend_data`, without the presentation
labels of the efficiency-cost list. -/
structure Trends where
  rhr : TrendEntry
  batt : TrendEntry
  stress : TrendEntry
  hrv : TrendEntry
deriving DecidableEq

def zeroEntry : TrendEntry := ⟨0, 0, 0⟩

def defaultTRow : TRow := ⟨0, none, none, none, none, none⟩

/-- `get_trend_data(conn, target_date, days)` on the already-fetched,
day-descending row list `rows` (row 0 is the most recent row present in
the window) and HRV map `hm`.  The 7-day slope needs at least 6 rows and
subtracts the mean of the last three rows from the mean of the first
three; the 3-day slope needs more than 3 rows and subtracts row 3 from
row 0; both stay 0 otherwise. -/
def get_trend_data (hm : ℤ → Option ℚ) (rows : List TRow) : Trends :=
  match rows with
  | [] => ⟨zeroEntry, zeroEntry, zeroEntry, zeroEntry⟩
  | r0 :: _ =>
    let n := rows.length
    let recent := rows.take 3
    let old := rows.drop (n - 3)
    let avg : (TRow → ℚ) → List TRow → ℚ := fun f l => (l.map f).sum / 3
    let t7 : (TRow → ℚ) → ℚ := fun f =>
      if n ≥ 6 then roundTo1 (avg f recent - avg f old) else 0
    let t3 : (TRow → ℚ) → ℚ := fun f =>
      if n > 3 then f r0 - f (rows.getD 3 defaultTRow) else 0
    { rhr := ⟨t7 rv, t3 rv, rv r0⟩
      batt := ⟨t7 bv, t3 bv, bv r0⟩
      stress := ⟨t7 sv, t3 sv, sv r0⟩
      hrv := ⟨t7 (hv hm), t3 (hv hm), hv hm r0⟩ }

/-! ### The History Driver, `get_recovery_history_data` -/

/-- The parallel lists built by the history loop. -/
structure HistoryData where
  dates : List ℤ
  recovery_score : List (Option ℚ)
  rhr_score : List (Option ℚ)
  hrv_score : List (Option ℚ)
  stress_score : List (Option ℚ)
deriving DecidableEq

/-- The per-date verdict status: `calculate_metrics` under its try/except,
modelled as an `Except`-valued oracle; on any exception the loop
substitutes the neutral "GREEN". -/
def histStatus (mo : ℤ → Except Unit String) (d : ℤ) : String :=
  match mo d with
  | .ok s => s
  | .error _ => "GREEN"

/-- The per-date score columns: `get_recovery_score` under its try/except,
modelled as an `Except`-valued oracle; on success the reported composite
and the three sub-scores are appended, on any exception four nulls. -/
def histCols (so : ℤ → String → Except Unit RecoveryScore) (d : ℤ) (s : String) :
    Option ℚ × Option ℚ × Option ℚ × Option ℚ :=
  match so d s with
  | .ok sc => (some sc.score, some sc.rhr_score, some sc.hrv_score, some sc.stress_score)
  | .error _ => (none, none, none, none)

/-- `get_recovery_history_data(days)`: iterate day by day from the start
date (`today - (days-1)`) for `n` days, appending exactly one entry per
date; the two fallible per-date computations are isolated as above, so no
date's failure can abort the loop. -/
def get_recovery_history_data (mo : ℤ → Except Unit String)
    (so : ℤ → String → Except Unit RecoveryScore) : ℤ → ℕ → HistoryData
  | _, 0 => ⟨[], [], [], [], []⟩
  | d, n + 1 =>
    let c := histCols so d (histStatus mo d)
    let rest := get_recovery_history_data mo so (d + 1) n
    ⟨d :: rest.dates, c.1 :: rest.recovery_score, c.2.1 :: rest.rhr_score,
      c.2.2.1 :: rest.hrv_score, c.2.2.2 :: rest.stress_score⟩

/-! ### Concrete instances used by witnesses and counterexamples -/

/-- No activities on any day. -/
def acts0 : ℤ → List (Option ℚ) := fun _ => []

/-- No sleep rows (parsed sleep hours 0 everywhere). -/
def sleep0 : ℤ → ℚ := fun _ => 0

/-- A clean day: every gate passes. -/
def rowClean : DailyRow := ⟨some 50, some 100, some 80, some 30, some 4000, some 40⟩

/-- A database holding only the clean day at index 0. -/
def dbGreen : ℤ → Option DailyRow := fun d => if d = 0 then some rowClean else none

/-- The empty database. -/
def dbNone : ℤ → Option DailyRow := fun _ => none

/-- A low-step, high-stress day: only the Sensory Load red flag fires. -/
def rowIdle : DailyRow := ⟨some 50, none, some 80, some 45, some 800, some 10⟩

/-- A database holding only the sensory-overload day at index 0. -/
def dbIdle : ℤ → Option DailyRow := fun d => if d = 0 then some rowIdle else none

/-! ### Theorems -/

/-- Structural description of the final-verdict composition, proved once
about `mkVerdict` and transported to `calculate_metrics`. -/
theorem mkVerdict_composition (rf ws : List Flag) (m : MetricsOut) :
    (mkVerdict rf ws m).red_flags = rf ∧ (mkVerdict rf ws m).warnings = ws ∧
    (rf ≠ [] → (mkVerdict rf ws m).status = "RED" ∧
      (mkVerdict rf ws m).target_steps = 1500 ∧
      (Flag.highIdle ∈ rf → (mkVerdict rf ws m).reason = idleReason) ∧
      (Flag.highIdle ∉ rf → (mkVerdict rf ws m).reason =
        "STOP. " ++ String.intercalate ", " (rf.map Flag.render))) ∧
    (rf = [] → ws ≠ [] → (mkVerdict rf ws m).status = "YELLOW" ∧
      (mkVerdict rf ws m).target_steps = 3000 ∧
      (mkVerdict rf ws m).reason =
        "CAUTION. " ++ String.intercalate ", " (ws.map Flag.render)) ∧
    (rf = [] → ws = [] → (mkVerdict rf ws m).status = "GREEN" ∧
      (mkVerdict rf ws m).target_steps = 4500) := by
  unfold mkVerdict
  split_ifs with h1 h2 h3 <;> simp_all

/-- Reduction of `calculate_metrics` on a present daily-summary row. -/
theorem calculate_metrics_some (db : ℤ → Option DailyRow)
    (acts : ℤ → List (Option ℚ)) (sleepH : ℤ → ℚ) (t : ℤ) (r : DailyRow)
    (hrow : db t = some r) :
    calculate_metrics db acts sleepH t =
      mkVerdict (redFlagsOf db t r) (warningsOf db acts sleepH t r) (metricsOf r) := by
  unfold calculate_metrics
  rw [hrow]

/-- C1 (amended): for every target date whose daily-summary row exists, the
verdict is composed as: a non-empty red-flag list gives status RED with
step ceiling 1500 and, unless the Sensory Load flag is among the red flags
(in which case the fixed sensory-deprivation text replaces it), a message
concatenating the red flags; otherwise a non-empty warning list gives
YELLOW with ceiling 3000 and a message concatenating the warnings;
otherwise GREEN with ceiling 4500.  In particular a RED verdict is produced
whenever any red flag fired, regardless of the warnings accumulated. -/
theorem final_verdict_composition (db : ℤ → Option DailyRow)
    (acts : ℤ → List (Option ℚ)) (sleepH : ℤ → ℚ) (t : ℤ) (r : DailyRow)
    (v : Verdict) (hrow : db t = some r)
    (hv : v = calculate_metrics db acts sleepH t) :
    (v.red_flags ≠ [] → v.status = "RED" ∧ v.target_steps = 1500 ∧
      (Flag.highIdle ∈ v.red_flags → v.reason = idleReason) ∧
      (Flag.highIdle ∉ v.red_flags → v.reason =
        "STOP. " ++ String.intercalate ", " (v.red_flags.map Flag.render))) ∧
    (v.red_flags = [] → v.warnings ≠ [] → v.status = "YELLOW" ∧
      v.target_steps = 3000 ∧
      v.reason = "CAUTION. " ++ String.intercalate ", " (v.warnings.map Flag.render)) ∧
    (v.red_flags = [] → v.warnings = [] → v.status = "GREEN" ∧
      v.target_steps = 4500) := by
  subst hv
  rw [calculate_metrics_some db acts sleepH t r hrow]
  obtain ⟨hrf, hws, hred, hyel, hgrn⟩ :=
    mkVerdict_composition (redFlagsOf db t r) (warningsOf db acts sleepH t r) (metricsOf r)
  rw [hrf, hws]
  exact ⟨hred, hyel, hgrn⟩

/-- Full evaluation of the clean concrete day: the GREEN verdict. -/
theorem dbGreen_eval : calculate_metrics dbGreen acts0 sleep0 0 =
    ⟨"GREEN", "Go for it. Maintain pacing.", 4500, [], [],
      some ⟨some 50, some 80, 10, some 4000⟩⟩ := by
  norm_num [calculate_metrics, dbGreen, rowClean, mkVerdict, redFlagsOf, warningsOf,
    gate1Flags, idleFlags, rechargeFlags, t1Flags, sleepWarn, lag2Warns, physioWarn,
    moveWarn, metricsOf, tval, acts0, sleep0, BASELINE_RHR, BASELINE_COST,
    BASELINE_STEPS, BASELINE_STRESS]

/-- Full evaluation of the sensory-overload concrete day: the RED verdict
with the special message. -/
theorem dbIdle_eval : calculate_metrics dbIdle acts0 sleep0 0 =
    ⟨"RED", idleReason, 1500, [Flag.highIdle], [],
      some ⟨some 50, some 80, 12.5, some 800⟩⟩ := by
  norm_num [calculate_metrics, dbIdle, rowIdle, mkVerdict, redFlagsOf, warningsOf,
    gate1Flags, idleFlags, rechargeFlags, t1Flags, sleepWarn, lag2Warns, physioWarn,
    moveWarn, metricsOf, tval, acts0, sleep0, BASELINE_RHR, BASELINE_COST,
    BASELINE_STEPS, BASELINE_STRESS]

/-- Witness for C1: on a clean concrete day both lists are empty and the
theorem yields the GREEN verdict with ceiling 4500. -/
theorem final_verdict_composition_wit :
    (calculate_metrics dbGreen acts0 sleep0 0).status = "GREEN" ∧
    (calculate_metrics dbGreen acts0 sleep0 0).target_steps = 4500 :=
  (final_verdict_composition dbGreen acts0 sleep0 0 rowClean _ rfl rfl).2.2
    (by rw [dbGreen_eval]) (by rw [dbGreen_eval])

/-- Counterexample for C1 as stated: on a concrete day whose only red flag
is the Sensory Load flag, the RED message is the fixed sensory-deprivation
text, not a concatenation of the red flags (neither with nor without the
"STOP. " prefix). -/
theorem final_verdict_message_cex :
    (calculate_metrics dbIdle acts0 sleep0 0).red_flags = [Flag.highIdle] ∧
    (calculate_metrics dbIdle acts0 sleep0 0).reason = idleReason ∧
    (calculate_metrics dbIdle acts0 sleep0 0).reason ≠
      "STOP. " ++ String.intercalate ", " ([Flag.highIdle].map Flag.render) ∧
    (calculate_metrics dbIdle acts0 sleep0 0).reason ≠
      String.intercalate ", " ([Flag.highIdle].map Flag.render) :=
  ⟨by rw [dbIdle_eval], by rw [dbIdle_eval],
   by rw [dbIdle_eval]; decide, by rw [dbIdle_eval]; decide⟩

theorem vetoOf_red (c : ℚ) : vetoOf "RED" c = (40, some vetoRedMsg) := rfl

theorem vetoOf_yellow_hi (c : ℚ) (h : c > 75) :
    vetoOf "YELLOW" c = (75, some vetoYellowMsg) := by
  unfold vetoOf
  rw [if_neg (by decide : ¬ ("YELLOW" : String) = "RED"), if_pos rfl, if_pos h]

theorem vetoOf_yellow_lo (c : ℚ) (h : c ≤ 75) :
    vetoOf "YELLOW" c = (c, none) := by
  unfold vetoOf
  rw [if_neg (by decide : ¬ ("YELLOW" : String) = "RED"), if_pos rfl,
    if_neg (not_lt.mpr h)]

theorem vetoOf_other (s : String) (h1 : s ≠ "RED") (h2 : s ≠ "YELLOW") (c : ℚ) :
    vetoOf s c = (c, none) := by
  unfold vetoOf
  rw [if_neg h1, if_neg h2]

/-- Decomposition of the returned score and veto message through `vetoOf`
and `rawComposite` (definitional). -/
theorem get_recovery_score_veto (s : String) (a b c d : Option ℚ) :
    (get_recovery_score s a b c d).score =
      roundTo1 (vetoOf s (rawComposite a b c d)).1 ∧
    (get_recovery_score s a b c d).veto_msg =
      (vetoOf s (rawComposite a b c d)).2 :=
  ⟨rfl, rfl⟩

/-- C2: the veto protocol of `get_recovery_score`.  With `C` the composite
weighted score (`rawComposite`): status RED returns exactly 40 with the
veto message, independent of `C`; status YELLOW returns exactly 75 with a
different veto message when `C` exceeds 75 and otherwise returns the
(one-decimal reported) composite unchanged with no message; GREEN and GRAY
never alter the composite and attach no message. -/
theorem veto_protocol_spec (s : String) (rhr7 hrvLast hrv7 stress7 : Option ℚ) :
    (s = "RED" →
      (get_recovery_score s rhr7 hrvLast hrv7 stress7).score = 40 ∧
      (get_recovery_score s rhr7 hrvLast hrv7 stress7).veto_msg = some vetoRedMsg) ∧
    (s = "YELLOW" → rawComposite rhr7 hrvLast hrv7 stress7 > 75 →
      (get_recovery_score s rhr7 hrvLast hrv7 stress7).score = 75 ∧
      (get_recovery_score s rhr7 hrvLast hrv7 stress7).veto_msg = some vetoYellowMsg) ∧
    (s = "YELLOW" → rawComposite rhr7 hrvLast hrv7 stress7 ≤ 75 →
      (get_recovery_score s rhr7 hrvLast hrv7 stress7).score =
        roundTo1 (rawComposite rhr7 hrvLast hrv7 stress7) ∧
      (get_recovery_score s rhr7 hrvLast hrv7 stress7).veto_msg = none) ∧
    ((s = "GREEN" ∨ s = "GRAY") →
      (get_recovery_score s rhr7 hrvLast hrv7 stress7).score =
        roundTo1 (rawComposite rhr7 hrvLast hrv7 stress7) ∧
      (get_recovery_score s rhr7 hrvLast hrv7 stress7).veto_msg = none) ∧
    vetoRedMsg ≠ vetoYellowMsg := by
  obtain ⟨hsc, hvm⟩ := get_recovery_score_veto s rhr7 hrvLast hrv7 stress7
  refine ⟨?_, ?_, ?_, ?_, by decide⟩
  · intro h
    subst h
    rw [hsc, hvm, vetoOf_red]
    exact ⟨by norm_num [roundTo1, round_eq], rfl⟩
  · intro h hc
    subst h
    rw [hsc, hvm, vetoOf_yellow_hi _ hc]
    exact ⟨by norm_num [roundTo1, round_eq], rfl⟩
  · intro h hc
    subst h
    rw [hsc, hvm, vetoOf_yellow_lo _ hc]
    exact ⟨rfl, rfl⟩
  · intro h
    have h1 : s ≠ "RED" := by rcases h with h | h <;> subst h <;> decide
    have h2 : s ≠ "YELLOW" := by rcases h with h | h <;> subst h <;> decide
    rw [hsc, hvm, vetoOf_other s h1 h2]
    exact ⟨rfl, rfl⟩

/-- Evaluation of the composite on empty aggregates: all three sub-scores
take their fallback baselines and score 100. -/
theorem rawComposite_empty : rawComposite none none none none = 100 := by
  norm_num [rawComposite, currentRhrOf, hrv7dOf, hrvTodayOf, rawStressOf, hrvRelOf,
    zOf, adjStressOf, pyOr, rhrScoreOfZ, rhrCurve, hrvScoreOfR, stressScoreOfAdj,
    GOLDEN_RHR_MEAN, GOLDEN_RHR_SD, GOLDEN_STRESS_MEAN, HRV_7D_FALLBACK, tval]

/-- Witness for C2: concrete scores at each status. -/
theorem veto_protocol_spec_wit :
    (get_recovery_score "RED" (some 55) (some 40) (some 50) (some 45)).score = 40 ∧
    (get_recovery_score "YELLOW" none none none none).score = 75 ∧
    (get_recovery_score "GREEN" none none none none).score =
      roundTo1 (rawComposite none none none none) :=
  ⟨((veto_protocol_spec "RED" (some 55) (some 40) (some 50) (some 45)).1 rfl).1,
   ((veto_protocol_spec "YELLOW" none none none none).2.1 rfl
      (by rw [rawComposite_empty]; norm_num)).1,
   ((veto_protocol_spec "GREEN" none none none none).2.2.2.1 (Or.inl rfl)).1⟩

/-- C3: a target date with no daily-summary row yields the GRAY verdict
with step ceiling 0 and empty flag lists; `calculate_metrics` is a total
function, so the evaluation raises nothing. -/
theorem gray_on_missing_row (db : ℤ → Option DailyRow)
    (acts : ℤ → List (Option ℚ)) (sleepH : ℤ → ℚ) (t : ℤ)
    (h : db t = none) :
    calculate_metrics db acts sleepH t =
      ⟨"GRAY", "No Data", 0, [], [], none⟩ := by
  unfold calculate_metrics
  rw [h]

/-- Witness for C3: the empty database at day 0. -/
theorem gray_on_missing_row_wit :
    calculate_metrics dbNone acts0 sleep0 0 = ⟨"GRAY", "No Data", 0, [], [], none⟩ :=
  gray_on_missing_row dbNone acts0 sleep0 0 rfl

/-- A heavy T-2 day: 6000 steps and a 120 max HR two days before target. -/
def rowT2hi : DailyRow := ⟨none, some 120, none, some 20, some 6000, none⟩

/-- Clean target day with the heavy T-2 day two days before. -/
def dbLag2 : ℤ → Option DailyRow := fun d =>
  if d = 0 then some rowClean else if d = -2 then some rowT2hi else none

/-- A T-2 day meeting the Lag-2 sensory-overload condition (stress 40,
steps 2000) whose risk score also exceeds 1.5. -/
def rowT2sens : DailyRow := ⟨none, none, none, some 40, some 2000, none⟩

/-- Clean target day with the sensory T-2 day two days before. -/
def dbLag2s : ℤ → Option DailyRow := fun d =>
  if d = 0 then some rowClean else if d = -2 then some rowT2sens else none

/-- C4 (amended): for a target date whose own and T-2 daily-summary rows
exist, the Lag-2 gate appends the high-load warning when T-2 steps exceed
5000; when the sensory-overload condition (T-2 stress > 35 and T-2 steps
< 3000) holds it appends the sensory warning instead; only when neither of
those fires and the risk score (steps/4000 + stress/35) exceeds 1.5 does
it append the warning carrying the rounded risk score; and independently
a T-2 max-HR above 110 appends the HR-spike warning. -/
theorem lag2_gate_spec (db : ℤ → Option DailyRow) (acts : ℤ → List (Option ℚ))
    (sleepH : ℤ → ℚ) (t : ℤ) (r r2 : DailyRow)
    (hrow : db t = some r) (h2 : db (t - 2) = some r2) :
    (tval r2.steps > 5000 →
      Flag.lag2HighLoad (t - 2) ∈ (calculate_metrics db acts sleepH t).warnings) ∧
    (¬(tval r2.stress_avg > 35 ∧ tval r2.steps < 3000) → tval r2.steps ≤ 5000 →
      tval r2.steps / BASELINE_STEPS + tval r2.stress_avg / BASELINE_STRESS > 1.5 →
      Flag.lag2Risk (roundTo2 (tval r2.steps / BASELINE_STEPS +
          tval r2.stress_avg / BASELINE_STRESS)) ∈
        (calculate_metrics db acts sleepH t).warnings) ∧
    (tval r2.stress_avg > 35 → tval r2.steps < 3000 →
      Flag.lag2Sensory ∈ (calculate_metrics db acts sleepH t).warnings) ∧
    (tval r2.hr_max > 110 →
      Flag.lag2HRSpike (t - 2) ∈ (calculate_metrics db acts sleepH t).warnings) := by
  have hw : (calculate_metrics db acts sleepH t).warnings = warningsOf db acts sleepH t r := by
    rw [calculate_metrics_some db acts sleepH t r hrow]
    exact (mkVerdict_composition _ _ _).2.1
  rw [hw]
  unfold warningsOf
  rw [h2]
  simp only [lag2Warns]
  refine ⟨?_, ?_, ?_, ?_⟩
  · intro h5
    have hns : ¬(tval r2.stress_avg > 35 ∧ tval r2.steps < 3000) := by
      rintro ⟨_, hlt⟩
      linarith
    rw [if_neg hns, if_pos h5]
    simp [List.mem_append]
  · intro hns hle hrisk
    rw [if_neg hns, if_neg (by simpa using hle), if_pos hrisk]
    simp [List.mem_append]
  · intro h35 h3k
    rw [if_pos ⟨h35, h3k⟩]
    simp [List.mem_append]
  · intro hhr
    rw [if_pos hhr]
    simp [List.mem_append]

/-- Witness for C4: the heavy concrete T-2 day fires both the high-load
and the HR-spike warnings. -/
theorem lag2_gate_spec_wit :
    Flag.lag2HighLoad (0 - 2) ∈ (calculate_metrics dbLag2 acts0 sleep0 0).warnings ∧
    Flag.lag2HRSpike (0 - 2) ∈ (calculate_metrics dbLag2 acts0 sleep0 0).warnings :=
  ⟨(lag2_gate_spec dbLag2 acts0 sleep0 0 rowClean rowT2hi rfl rfl).1
      (by norm_num [tval, rowT2hi]),
   (lag2_gate_spec dbLag2 acts0 sleep0 0 rowClean rowT2hi rfl rfl).2.2.2
      (by norm_num [tval, rowT2hi])⟩

/-- Evaluation of the sensory T-2 scenario: the only warning is the
sensory-overload one. -/
theorem dbLag2s_warnings :
    (calculate_metrics dbLag2s acts0 sleep0 0).warnings = [Flag.lag2Sensory] := by
  norm_num [calculate_metrics, dbLag2s, rowClean, rowT2sens, mkVerdict, redFlagsOf,
    warningsOf, gate1Flags, idleFlags, rechargeFlags, t1Flags, sleepWarn, lag2Warns,
    physioWarn, moveWarn, metricsOf, tval, acts0, sleep0, BASELINE_RHR, BASELINE_COST,
    BASELINE_STEPS, BASELINE_STRESS]

/-- Counterexample for C4 as stated: a concrete T-2 day with steps 2000
(at most 5000) and stress 40, whose risk score 23/14 exceeds 1.5, yet no
warning carrying that score is appended — the sensory-overload branch
preempts the risk branch. -/
theorem lag2_risk_branch_cex :
    tval rowT2sens.steps ≤ 5000 ∧
    tval rowT2sens.steps / BASELINE_STEPS + tval rowT2sens.stress_avg / BASELINE_STRESS > 1.5 ∧
    (calculate_metrics dbLag2s acts0 sleep0 0).warnings = [Flag.lag2Sensory] ∧
    Flag.lag2Risk (roundTo2 (tval rowT2sens.steps / BASELINE_STEPS +
        tval rowT2sens.stress_avg / BASELINE_STRESS)) ∉
      (calculate_metrics dbLag2s acts0 sleep0 0).warnings := by
  refine ⟨by norm_num [tval, rowT2sens], ?_, dbLag2s_warnings, ?_⟩
  · norm_num [tval, rowT2sens, BASELINE_STEPS, BASELINE_STRESS]
  · rw [dbLag2s_warnings]
    simp

/-- A heavy T-1 day: 4000 steps the day before target. -/
def rowT1hi : DailyRow := ⟨none, none, none, none, some 4000, some 100⟩

/-- Clean target day with the heavy T-1 day the day before. -/
def dbT1 : ℤ → Option DailyRow := fun d =>
  if d = 0 then some rowClean else if d = -1 then some rowT1hi else none

/-- C5: the Safety Ceiling gate.  With both the target and the T-1 rows
present: T-1 steps above 3000 appends the Volume Ceiling red flag and the
verdict is RED with ceiling 1500; otherwise a T-1 physiological cost
(calories/steps*1000, computed only for positive steps) above 150 appends
the Metabolic Tax red flag; consequently a GREEN or YELLOW status implies
T-1 steps were at most 3000. -/
theorem t1_safety_ceiling_spec (db : ℤ → Option DailyRow)
    (acts : ℤ → List (Option ℚ)) (sleepH : ℤ → ℚ) (t : ℤ) (r r1 : DailyRow)
    (hrow : db t = some r) (h1 : db (t - 1) = some r1) :
    (tval r1.steps > 3000 →
      Flag.volumeCeiling (tval r1.steps) ∈ (calculate_metrics db acts sleepH t).red_flags ∧
      (calculate_metrics db acts sleepH t).status = "RED" ∧
      (calculate_metrics db acts sleepH t).target_steps = 1500) ∧
    (tval r1.steps ≤ 3000 →
      (if tval r1.steps > 0 then tval r1.calories_active / tval r1.steps * 1000 else 0) > 150 →
      Flag.highMetabolicTax (pyInt
          (if tval r1.steps > 0 then tval r1.calories_active / tval r1.steps * 1000 else 0)) ∈
        (calculate_metrics db acts sleepH t).red_flags) ∧
    ((calculate_metrics db acts sleepH t).status = "GREEN" ∨
        (calculate_metrics db acts sleepH t).status = "YELLOW" →
      tval r1.steps ≤ 3000) := by
  rw [calculate_metrics_some db acts sleepH t r hrow]
  obtain ⟨hrfl, hwsl, hred, hyel, hgrn⟩ :=
    mkVerdict_composition (redFlagsOf db t r) (warningsOf db acts sleepH t r) (metricsOf r)
  have hvol : tval r1.steps > 3000 →
      Flag.volumeCeiling (tval r1.steps) ∈ redFlagsOf db t r := by
    intro h3k
    unfold redFlagsOf t1Flags
    rw [h1]
    simp only []
    rw [if_pos h3k]
    simp [List.mem_append]
  refine ⟨?_, ?_, ?_⟩
  · intro h3k
    have hmem := hvol h3k
    have hne : redFlagsOf db t r ≠ [] := by
      intro he
      rw [he] at hmem
      simp at hmem
    obtain ⟨hs, htg, _, _⟩ := hred hne
    exact ⟨by rw [hrfl]; exact hmem, hs, htg⟩
  · intro hle hcost
    rw [hrfl]
    unfold redFlagsOf t1Flags
    rw [h1]
    simp only []
    rw [if_neg (by simpa using hle), if_pos hcost]
    simp [List.mem_append]
  · intro hst
    by_contra hgt
    rw [not_le] at hgt
    have hmem := hvol hgt
    have hne : redFlagsOf db t r ≠ [] := by
      intro he
      rw [he] at hmem
      simp at hmem
    obtain ⟨hs, _, _, _⟩ := hred hne
    rcases hst with h | h <;> rw [hs] at h <;> exact absurd h (by decide)

/-- Witness for C5: the heavy concrete T-1 day breaches the volume
ceiling and forces RED with ceiling 1500. -/
theorem t1_safety_ceiling_wit :
    Flag.volumeCeiling (tval rowT1hi.steps) ∈
      (calculate_metrics dbT1 acts0 sleep0 0).red_flags ∧
    (calculate_metrics dbT1 acts0 sleep0 0).status = "RED" ∧
    (calculate_metrics dbT1 acts0 sleep0 0).target_steps = 1500 :=
  (t1_safety_ceiling_spec dbT1 acts0 sleep0 0 rowClean rowT1hi rfl rfl).1
    (by norm_num [tval, rowT1hi])

/-- C6: a target day with steps present and below 3000 and average stress
above 35 gets the Sensory Load red flag, hence a RED verdict with ceiling
1500 whose reason is the special sensory-deprivation text rather than the
concatenation of red flags. -/
theorem sensory_overload_red (db : ℤ → Option DailyRow)
    (acts : ℤ → List (Option ℚ)) (sleepH : ℤ → ℚ) (t : ℤ) (r : DailyRow) (s : ℚ)
    (hrow : db t = some r) (hsteps : r.steps = some s) (hlt : s < 3000)
    (hstress : tval r.stress_avg > 35) :
    Flag.highIdle ∈ (calculate_metrics db acts sleepH t).red_flags ∧
    (calculate_metrics db acts sleepH t).status = "RED" ∧
    (calculate_metrics db acts sleepH t).target_steps = 1500 ∧
    (calculate_metrics db acts sleepH t).reason = idleReason := by
  rw [calculate_metrics_some db acts sleepH t r hrow]
  obtain ⟨hrfl, hwsl, hred, hyel, hgrn⟩ :=
    mkVerdict_composition (redFlagsOf db t r) (warningsOf db acts sleepH t r) (metricsOf r)
  have hcond : r.steps.isSome = true ∧ r.steps.getD 0 < 3000 ∧ tval r.stress_avg > 35 := by
    rw [hsteps]
    exact ⟨rfl, by simpa using hlt, hstress⟩
  have hmem : Flag.highIdle ∈ redFlagsOf db t r := by
    unfold redFlagsOf idleFlags
    rw [if_pos hcond]
    simp [List.mem_append]
  have hne : redFlagsOf db t r ≠ [] := by
    intro he
    rw [he] at hmem
    simp at hmem
  obtain ⟨hs, htg, hir, _⟩ := hred hne
  exact ⟨by rw [hrfl]; exact hmem, hs, htg, hir hmem⟩

/-- Witness for C6: the concrete sensory-overload day. -/
theorem sensory_overload_red_wit :
    Flag.highIdle ∈ (calculate_metrics dbIdle acts0 sleep0 0).red_flags ∧
    (calculate_metrics dbIdle acts0 sleep0 0).status = "RED" ∧
    (calculate_metrics dbIdle acts0 sleep0 0).target_steps = 1500 ∧
    (calculate_metrics dbIdle acts0 sleep0 0).reason = idleReason :=
  sensory_overload_red dbIdle acts0 sleep0 0 rowIdle 800 rfl rfl (by norm_num)
    (by norm_num [tval, rowIdle])

/-- Reported RHR sub-score in the worked scenario (7-day RHR 55): the exact
value 1930/89 ≈ 21.685 rounds to 21.7. -/
theorem worked_rhr_score_eval :
    (get_recovery_score "GREEN" (some 55) (some 40) (some 50) (some 45)).rhr_score = 21.7 := by
  norm_num [get_recovery_score, currentRhrOf, hrv7dOf, hrvTodayOf, rawStressOf, hrvRelOf,
    zOf, adjStressOf, pyOr, rhrScoreOfZ, rhrCurve, hrvScoreOfR, stressScoreOfAdj,
    GOLDEN_RHR_MEAN, GOLDEN_RHR_SD, GOLDEN_STRESS_MEAN, HRV_7D_FALLBACK, tval,
    roundTo1, round_eq, max_def, abs]

/-- Reported HRV sub-score in the worked scenario (quotient 0.8). -/
theorem worked_hrv_score_eval :
    (get_recovery_score "GREEN" (some 55) (some 40) (some 50) (some 45)).hrv_score = 50 := by
  norm_num [get_recovery_score, currentRhrOf, hrv7dOf, hrvTodayOf, rawStressOf, hrvRelOf,
    zOf, adjStressOf, pyOr, rhrScoreOfZ, rhrCurve, hrvScoreOfR, stressScoreOfAdj,
    GOLDEN_RHR_MEAN, GOLDEN_RHR_SD, GOLDEN_STRESS_MEAN, HRV_7D_FALLBACK, tval,
    roundTo1, round_eq, max_def, abs]

/-- Reported stress sub-score in the worked scenario (raw stress 45). -/
theorem worked_stress_score_eval :
    (get_recovery_score "GREEN" (some 55) (some 40) (some 50) (some 45)).stress_score = 68 := by
  norm_num [get_recovery_score, currentRhrOf, hrv7dOf, hrvTodayOf, rawStressOf, hrvRelOf,
    zOf, adjStressOf, pyOr, rhrScoreOfZ, rhrCurve, hrvScoreOfR, stressScoreOfAdj,
    GOLDEN_RHR_MEAN, GOLDEN_RHR_SD, GOLDEN_STRESS_MEAN, HRV_7D_FALLBACK, tval,
    roundTo1, round_eq, max_def, abs]

/-- Reported composite in the worked scenario under GREEN: the exact
weighted sum 470389/11125 ≈ 42.282 rounds to 42.3. -/
theorem worked_green_score_eval :
    (get_recovery_score "GREEN" (some 55) (some 40) (some 50) (some 45)).score = 42.3 := by
  have h := (get_recovery_score_veto "GREEN" (some 55) (some 40) (some 50) (some 45)).1
  rw [vetoOf_other "GREEN" (by decide) (by decide)] at h
  rw [h]
  norm_num [rawComposite, currentRhrOf, hrv7dOf, hrvTodayOf, rawStressOf, hrvRelOf,
    zOf, adjStressOf, pyOr, rhrScoreOfZ, rhrCurve, hrvScoreOfR, stressScoreOfAdj,
    GOLDEN_RHR_MEAN, GOLDEN_RHR_SD, GOLDEN_STRESS_MEAN, HRV_7D_FALLBACK, tval,
    roundTo1, round_eq, max_def, abs]

/-- Reported composite in the worked scenario under GRAY: same value. -/
theorem worked_gray_score_eval :
    (get_recovery_score "GRAY" (some 55) (some 40) (some 50) (some 45)).score = 42.3 := by
  have h := (get_recovery_score_veto "GRAY" (some 55) (some 40) (some 50) (some 45)).1
  rw [vetoOf_other "GRAY" (by decide) (by decide)] at h
  rw [h]
  norm_num [rawComposite, currentRhrOf, hrv7dOf, hrvTodayOf, rawStressOf, hrvRelOf,
    zOf, adjStressOf, pyOr, rhrScoreOfZ, rhrCurve, hrvScoreOfR, stressScoreOfAdj,
    GOLDEN_RHR_MEAN, GOLDEN_RHR_SD, GOLDEN_STRESS_MEAN, HRV_7D_FALLBACK, tval,
    roundTo1, round_eq, max_def, abs]

/-- C7 (amended): in the worked scenario (7-day RHR 55, HRV quotient 0.8,
7-day stress 45) the adjusted stress is exactly 51.75, the reported RHR
sub-score is 21.7 (within ±1 of the claimed 22), the HRV sub-score is 50,
the stress sub-score is 68, and the final reported composite is 42.3 —
not 42.4, which the claim obtains by re-weighting the already-rounded
sub-score 22 — under both GREEN and GRAY statuses. -/
theorem worked_example_scores :
    adjStressOf (some 45) = 51.75 ∧
    (get_recovery_score "GREEN" (some 55) (some 40) (some 50) (some 45)).rhr_score = 21.7 ∧
    |(get_recovery_score "GREEN" (some 55) (some 40) (some 50) (some 45)).rhr_score - 22| ≤ 1 ∧
    (get_recovery_score "GREEN" (some 55) (some 40) (some 50) (some 45)).hrv_score = 50 ∧
    (get_recovery_score "GREEN" (some 55) (some 40) (some 50) (some 45)).stress_score = 68 ∧
    (get_recovery_score "GREEN" (some 55) (some 40) (some 50) (some 45)).score = 42.3 ∧
    (get_recovery_score "GRAY" (some 55) (some 40) (some 50) (some 45)).score = 42.3 := by
  refine ⟨by norm_num [adjStressOf, rawStressOf, pyOr], worked_rhr_score_eval, ?_,
    worked_hrv_score_eval, worked_stress_score_eval, worked_green_score_eval,
    worked_gray_score_eval⟩
  rw [worked_rhr_score_eval, abs_le]
  constructor <;> norm_num

/-- Counterexample for C7 as stated: the reported composite of the worked
scenario is 42.3, not 42.4. -/
theorem worked_example_composite_cex :
    (get_recovery_score "GREEN" (some 55) (some 40) (some 50) (some 45)).score ≠ 42.4 := by
  rw [worked_green_score_eval]
  norm_num

/-- The RHR curve is non-increasing beyond half an SD. -/
theorem rhrCurve_anti (a b : ℚ) (ha : 1/2 < a) (hab : a ≤ b) : rhrCurve b ≤ rhrCurve a := by
  unfold rhrCurve
  split_ifs <;>
    first
      | linarith
      | exact max_le (by linarith) (by linarith)
      | exact max_le_max le_rfl (by linarith)

theorem hrvScoreOfR_hi (r : ℚ) (h : 1.2 < r) :
    hrvScoreOfR r = max 0 (100 - (r - 1.2) * 250) := by
  unfold hrvScoreOfR
  rw [if_neg (by rintro ⟨_, h2⟩; linarith), if_pos h]

theorem hrvScoreOfR_lo (r : ℚ) (h : r < 0.9) :
    hrvScoreOfR r = max 0 (100 - (0.9 - r) * 500) := by
  unfold hrvScoreOfR
  rw [if_neg (by rintro ⟨h1, _⟩; linarith), if_neg (by intro h2; linarith)]

theorem hrvScoreOfR_band (r : ℚ) (h1 : 0.9 ≤ r) (h2 : r ≤ 1.2) : hrvScoreOfR r = 100 := by
  unfold hrvScoreOfR
  rw [if_pos ⟨h1, h2⟩]

theorem hrvScoreOfR_le_100 (r : ℚ) : hrvScoreOfR r ≤ 100 := by
  unfold hrvScoreOfR
  split_ifs with h1 h2
  · exact le_rfl
  · exact max_le (by norm_num) (by nlinarith)
  · have h3 : r < 0.9 := by
      by_contra hge
      push_neg at hge
      exact h1 ⟨hge, not_lt.mp h2⟩
    exact max_le (by norm_num) (by nlinarith)

/-- C8 (amended): the RHR sub-score is non-increasing in the absolute
z-score beyond 0.5; the HRV sub-score is non-increasing as the quotient
moves away from the 0.9-1.2 band on either side; for equal distances `d`
from the band the score lost below is at least the score lost above for
every `d ≥ 0`, and strictly exceeds it exactly when `0 < d < 0.4` — at
`d ≥ 0.4` both sides have already floored to 0 and the losses are equal. -/
theorem subscore_monotonicity :
    (∀ z1 z2 : ℚ, 1/2 < |z1| → |z1| ≤ |z2| → rhrScoreOfZ z2 ≤ rhrScoreOfZ z1) ∧
    (∀ a b : ℚ, 1.2 ≤ a → a ≤ b → hrvScoreOfR b ≤ hrvScoreOfR a) ∧
    (∀ a b : ℚ, a ≤ b → b ≤ 0.9 → hrvScoreOfR a ≤ hrvScoreOfR b) ∧
    (∀ d : ℚ, 0 < d → d < 0.4 →
      100 - hrvScoreOfR (0.9 - d) > 100 - hrvScoreOfR (1.2 + d)) ∧
    (∀ d : ℚ, 0 ≤ d →
      100 - hrvScoreOfR (0.9 - d) ≥ 100 - hrvScoreOfR (1.2 + d)) := by
  refine ⟨?_, ?_, ?_, ?_, ?_⟩
  · intro z1 z2 h1 h12
    exact rhrCurve_anti _ _ h1 h12
  · intro a b ha hab
    rcases eq_or_lt_of_le ha with h | h
    · rw [← h, hrvScoreOfR_band 1.2 (by norm_num) (by norm_num)]
      exact hrvScoreOfR_le_100 b
    · rw [hrvScoreOfR_hi a h, hrvScoreOfR_hi b (lt_of_lt_of_le h hab)]
      exact max_le_max le_rfl (by linarith)
  · intro a b hab hb
    rcases eq_or_lt_of_le hb with h | h
    · rw [h, hrvScoreOfR_band 0.9 le_rfl (by norm_num)]
      exact hrvScoreOfR_le_100 a
    · rw [hrvScoreOfR_lo b h, hrvScoreOfR_lo a (lt_of_le_of_lt hab h)]
      exact max_le_max le_rfl (by linarith)
  · intro d h0 h4
    rw [hrvScoreOfR_lo _ (by linarith), hrvScoreOfR_hi _ (by linarith)]
    have e1 : (0.9 : ℚ) - (0.9 - d) = d := by ring
    have e2 : (1.2 : ℚ) + d - 1.2 = d := by ring
    rw [e1, e2]
    have hpos : (0:ℚ) < 100 - d * 250 := by linarith
    have hhi : max 0 (100 - d * 250) = 100 - d * 250 := max_eq_right (le_of_lt hpos)
    have hlo : max 0 (100 - d * 500) < 100 - d * 250 := max_lt hpos (by linarith)
    rw [hhi]
    linarith
  · intro d h0
    rcases eq_or_lt_of_le h0 with h | h
    · rw [← h]
      have b1 : hrvScoreOfR (0.9 - 0) = 100 :=
        hrvScoreOfR_band _ (by norm_num) (by norm_num)
      have b2 : hrvScoreOfR (1.2 + 0) = 100 :=
        hrvScoreOfR_band _ (by norm_num) (by norm_num)
      rw [b1, b2]
    · rw [hrvScoreOfR_lo _ (by linarith), hrvScoreOfR_hi _ (by linarith)]
      have e1 : (0.9 : ℚ) - (0.9 - d) = d := by ring
      have e2 : (1.2 : ℚ) + d - 1.2 = d := by ring
      rw [e1, e2]
      have hm : max 0 (100 - d * 500) ≤ max 0 (100 - d * 250) :=
        max_le_max le_rfl (by linarith)
      linarith

/-- Witness for C8: concrete instances of each monotonicity clause. -/
theorem subscore_monotonicity_wit :
    rhrScoreOfZ 2 ≤ rhrScoreOfZ 1 ∧
    hrvScoreOfR 1.5 ≤ hrvScoreOfR 1.3 ∧
    hrvScoreOfR 0.6 ≤ hrvScoreOfR 0.8 ∧
    100 - hrvScoreOfR (0.9 - 0.2) > 100 - hrvScoreOfR (1.2 + 0.2) ∧
    100 - hrvScoreOfR (0.9 - 0.5) ≥ 100 - hrvScoreOfR (1.2 + 0.5) :=
  ⟨subscore_monotonicity.1 1 2 (by rw [abs_one]; norm_num)
      (by rw [abs_one, abs_two]; norm_num),
   subscore_monotonicity.2.1 1.3 1.5 (by norm_num) (by norm_num),
   subscore_monotonicity.2.2.1 0.6 0.8 (by norm_num) (by norm_num),
   subscore_monotonicity.2.2.2.1 0.2 (by norm_num) (by norm_num),
   subscore_monotonicity.2.2.2.2 0.5 (by norm_num)⟩

/-- Counterexample for C8 as stated: at equal distance 0.4 from the band
both sub-scores have floored to 0, so the loss below (100) does not exceed
the loss above (100). -/
theorem hrv_equal_loss_cex :
    (0:ℚ) < 0.4 ∧
    hrvScoreOfR (0.9 - 0.4) = 0 ∧ hrvScoreOfR (1.2 + 0.4) = 0 ∧
    ¬(100 - hrvScoreOfR (0.9 - 0.4) > 100 - hrvScoreOfR (1.2 + 0.4)) := by
  refine ⟨by norm_num, ?_, ?_, ?_⟩ <;> norm_num [hrvScoreOfR, max_def]

/-- C9 (amended): over a fully-populated 7-day window (one row per day,
descending), each signal's 3-day delta is value(targetDate) minus
value(targetDate − 3) and its 7-day delta is the mean of the three most
recent days minus the mean of the three oldest days, rounded to one
decimal as reported; and whatever the window, fewer than 6 rows report a
7-day delta of zero.  (With gaps in the window the source subtracts the
i-th most recent rows present, not the rows of those dates.) -/
theorem trend_deltas_spec (hm : ℤ → Option ℚ) (t : ℤ)
    (r0 r1 r2 r3 r4 r5 r6 : TRow)
    (h0 : r0.day = t) (h1 : r1.day = t - 1) (h2 : r2.day = t - 2)
    (h3 : r3.day = t - 3) (h4 : r4.day = t - 4) (h5 : r5.day = t - 5)
    (h6 : r6.day = t - 6) :
    ((get_trend_data hm [r0, r1, r2, r3, r4, r5, r6]).rhr.trend_3d = rv r0 - rv r3 ∧
     (get_trend_data hm [r0, r1, r2, r3, r4, r5, r6]).batt.trend_3d = bv r0 - bv r3 ∧
     (get_trend_data hm [r0, r1, r2, r3, r4, r5, r6]).stress.trend_3d = sv r0 - sv r3 ∧
     (get_trend_data hm [r0, r1, r2, r3, r4, r5, r6]).hrv.trend_3d =
       (hm t).getD 0 - (hm (t - 3)).getD 0) ∧
    ((get_trend_data hm [r0, r1, r2, r3, r4, r5, r6]).rhr.trend_7d =
       roundTo1 ((rv r0 + rv r1 + rv r2) / 3 - (rv r4 + rv r5 + rv r6) / 3) ∧
     (get_trend_data hm [r0, r1, r2, r3, r4, r5, r6]).batt.trend_7d =
       roundTo1 ((bv r0 + bv r1 + bv r2) / 3 - (bv r4 + bv r5 + bv r6) / 3) ∧
     (get_trend_data hm [r0, r1, r2, r3, r4, r5, r6]).stress.trend_7d =
       roundTo1 ((sv r0 + sv r1 + sv r2) / 3 - (sv r4 + sv r5 + sv r6) / 3) ∧
     (get_trend_data hm [r0, r1, r2, r3, r4, r5, r6]).hrv.trend_7d =
       roundTo1 (((hm t).getD 0 + (hm (t - 1)).getD 0 + (hm (t - 2)).getD 0) / 3 -
         ((hm (t - 4)).getD 0 + (hm (t - 5)).getD 0 + (hm (t - 6)).getD 0) / 3)) ∧
    (∀ rows : List TRow, rows.length < 6 →
      (get_trend_data hm rows).rhr.trend_7d = 0 ∧
      (get_trend_data hm rows).batt.trend_7d = 0 ∧
      (get_trend_data hm rows).stress.trend_7d = 0 ∧
      (get_trend_data hm rows).hrv.trend_7d = 0) := by
  refine ⟨⟨?_, ?_, ?_, ?_⟩, ⟨?_, ?_, ?_, ?_⟩, ?_⟩
  · simp [get_trend_data, List.getD]
  · simp [get_trend_data, List.getD]
  · simp [get_trend_data, List.getD]
  · simp [get_trend_data, List.getD, hv, h0, h3]
  · simp [get_trend_data, List.getD]
    congr 1
    ring
  · simp [get_trend_data, List.getD]
    congr 1
    ring
  · simp [get_trend_data, List.getD]
    congr 1
    ring
  · simp [get_trend_data, List.getD, hv, h0, h1, h2, h4, h5, h6]
    congr 1
    ring
  · intro rows hlen
    match rows with
    | [] =>
      refine ⟨?_, ?_, ?_, ?_⟩ <;> simp [get_trend_data, zeroEntry]
    | r :: rest =>
      have hn : ¬ ((r :: rest).length ≥ 6) := by omega
      refine ⟨?_, ?_, ?_, ?_⟩ <;>
        · simp only [get_trend_data]
          rw [if_neg hn]

/-- Dense concrete window for the C9 witness, days 0 down to -6. -/
def tr0 : TRow := ⟨0, some 50, some 80, some 4000, some 40, some 30⟩

def tr1 : TRow := ⟨-1, some 49, some 80, some 4000, some 40, some 30⟩

def tr2 : TRow := ⟨-2, some 48, some 80, some 4000, some 40, some 30⟩

def tr3 : TRow := ⟨-3, some 47, some 80, some 4000, some 40, some 30⟩

def tr4 : TRow := ⟨-4, some 46, some 80, some 4000, some 40, some 30⟩

def tr5 : TRow := ⟨-5, some 45, some 80, some 4000, some 40, some 30⟩

def tr6 : TRow := ⟨-6, some 44, some 80, some 4000, some 40, some 30⟩

/-- HRV map holding values only on days 0 and -3. -/
def hm0 : ℤ → Option ℚ := fun d =>
  if d = 0 then some 60 else if d = -3 then some 55 else none

/-- Witness for C9: the dense concrete window gives RHR deltas 3 (3-day)
and 4 (7-day) and HRV 3-day delta 5. -/
theorem trend_deltas_wit :
    (get_trend_data hm0 [tr0, tr1, tr2, tr3, tr4, tr5, tr6]).rhr.trend_3d = 3 ∧
    (get_trend_data hm0 [tr0, tr1, tr2, tr3, tr4, tr5, tr6]).hrv.trend_3d = 5 ∧
    (get_trend_data hm0 [tr0, tr1, tr2, tr3, tr4, tr5, tr6]).rhr.trend_7d = 4 := by
  have h := trend_deltas_spec hm0 0 tr0 tr1 tr2 tr3 tr4 tr5 tr6
    rfl rfl rfl rfl rfl rfl rfl
  refine ⟨?_, ?_, ?_⟩
  · rw [h.1.1]
    norm_num [rv, tr0, tr3]
  · rw [h.1.2.2.2]
    norm_num [hm0]
  · rw [h.2.1.1]
    norm_num [rv, tr0, tr1, tr2, tr4, tr5, tr6, roundTo1, round_eq]

/-- Gappy concrete window (day -1 missing) for the C9 counterexample. -/
def q0 : TRow := ⟨0, some 50, none, none, none, none⟩

def q1 : TRow := ⟨-2, some 49, none, none, none, none⟩

def q2 : TRow := ⟨-3, some 47, none, none, none, none⟩

def q3 : TRow := ⟨-4, some 44, none, none, none, none⟩

def q4 : TRow := ⟨-5, some 43, none, none, none, none⟩

def q5 : TRow := ⟨-6, some 42, none, none, none, none⟩

/-- The empty HRV map. -/
def hmz : ℤ → Option ℚ := fun _ => none

/-- Counterexample for C9 as stated: in a gappy window (day -1 absent)
holding rows for the target date (value 50) and for targetDate − 3
(value 47), the reported 3-day RHR delta is 6 — row 3 of the descending
list is the day -4 row — and not value(t) − value(t−3) = 3. -/
theorem trend_delta_gap_cex :
    q0.day = 0 ∧ q2.day = 0 - 3 ∧
    (get_trend_data hmz [q0, q1, q2, q3, q4, q5]).rhr.trend_3d = 6 ∧
    rv q0 - rv q2 = 3 ∧ (6 : ℚ) ≠ 3 := by
  refine ⟨rfl, rfl, ?_, by norm_num [rv, q0, q2], by norm_num⟩
  simp [get_trend_data, List.getD, rv, q0, q3]
  norm_num

theorem histStatus_error (mo : ℤ → Except Unit String) (d : ℤ) (e : Unit)
    (h : mo d = .error e) : histStatus mo d = "GREEN" := by
  simp [histStatus, h]

theorem histCols_error (so : ℤ → String → Except Unit RecoveryScore) (d : ℤ)
    (s : String) (e : Unit) (h : so d s = .error e) :
    histCols so d s = (none, none, none, none) := by
  simp [histCols, h]

theorem histCols_ok (so : ℤ → String → Except Unit RecoveryScore) (d : ℤ)
    (s : String) (sc : RecoveryScore) (h : so d s = .ok sc) :
    histCols so d s =
      (some sc.score, some sc.rhr_score, some sc.hrv_score, some sc.stress_score) := by
  simp [histCols, h]

/-- Closed form of the history loop: one entry per date, ascending, each
column a function of its own date only. -/
theorem history_closed_form (mo : ℤ → Except Unit String)
    (so : ℤ → String → Except Unit RecoveryScore) (start : ℤ) (n : ℕ) :
    (get_recovery_history_data mo so start n).dates =
      (List.range n).map (fun i : ℕ => start + (i : ℤ)) ∧
    (get_recovery_history_data mo so start n).recovery_score =
      ((get_recovery_history_data mo so start n).dates).map
        (fun d => (histCols so d (histStatus mo d)).1) ∧
    (get_recovery_history_data mo so start n).rhr_score =
      ((get_recovery_history_data mo so start n).dates).map
        (fun d => (histCols so d (histStatus mo d)).2.1) ∧
    (get_recovery_history_data mo so start n).hrv_score =
      ((get_recovery_history_data mo so start n).dates).map
        (fun d => (histCols so d (histStatus mo d)).2.2.1) ∧
    (get_recovery_history_data mo so start n).stress_score =
      ((get_recovery_history_data mo so start n).dates).map
        (fun d => (histCols so d (histStatus mo d)).2.2.2) := by
  induction n generalizing start with
  | zero => simp [get_recovery_history_data]
  | succ k ih =>
    obtain ⟨ihd, ihr, ihh, ihv, ihs⟩ := ih (start + 1)
    have hfe : (fun i : ℕ => (start + 1) + (i : ℤ)) =
        (fun i : ℕ => start + ((i + 1 : ℕ) : ℤ)) := by
      funext i
      push_cast
      ring
    refine ⟨?_, ?_, ?_, ?_, ?_⟩
    · simp only [get_recovery_history_data]
      rw [ihd, List.range_succ_eq_map]
      simp only [List.map_cons, List.map_map]
      rw [hfe]
      simp [Function.comp]
    · simp only [get_recovery_history_data, List.map_cons]
      rw [ihr]
    · simp only [get_recovery_history_data, List.map_cons]
      rw [ihh]
    · simp only [get_recovery_history_data, List.map_cons]
      rw [ihv]
    · simp only [get_recovery_history_data, List.map_cons]
      rw [ihs]

/-- C10: the History Driver iterates day by day over the range, producing
exactly one entry per date in ascending order; each date's columns depend
only on that date's two fallible computations: a failed verdict
computation is replaced by the GREEN status fed to the scorer, a failed
score computation yields four null columns, and a successful one yields
the reported composite and sub-scores — so no date's failure aborts or
affects the rest of the range. -/
theorem history_isolation_spec (mo : ℤ → Except Unit String)
    (so : ℤ → String → Except Unit RecoveryScore) (start : ℤ) (n : ℕ) :
    ((get_recovery_history_data mo so start n).dates =
        (List.range n).map (fun i : ℕ => start + (i : ℤ)) ∧
      (get_recovery_history_data mo so start n).recovery_score =
        ((get_recovery_history_data mo so start n).dates).map
          (fun d => (histCols so d (histStatus mo d)).1) ∧
      (get_recovery_history_data mo so start n).rhr_score =
        ((get_recovery_history_data mo so start n).dates).map
          (fun d => (histCols so d (histStatus mo d)).2.1) ∧
      (get_recovery_history_data mo so start n).hrv_score =
        ((get_recovery_history_data mo so start n).dates).map
          (fun d => (histCols so d (histStatus mo d)).2.2.1) ∧
      (get_recovery_history_data mo so start n).stress_score =
        ((get_recovery_history_data mo so start n).dates).map
          (fun d => (histCols so d (histStatus mo d)).2.2.2)) ∧
    (∀ d e, mo d = .error e → histStatus mo d = "GREEN") ∧
    (∀ d s e, so d s = .error e → histCols so d s = (none, none, none, none)) ∧
    (∀ d s sc, so d s = .ok sc → histCols so d s =
      (some sc.score, some sc.rhr_score, some sc.hrv_score, some sc.stress_score)) :=
  ⟨history_closed_form mo so start n,
   fun d e h => histStatus_error mo d e h,
   fun d s e h => histCols_error so d s e h,
   fun d s sc h => histCols_ok so d s sc h⟩

/-- Verdict oracle failing exactly on day 0 for the C10 witness. -/
def mo0 : ℤ → Except Unit String := fun d =>
  if d = 0 then .error () else .ok "RED"

/-- Score oracle failing exactly on day 1 for the C10 witness. -/
def so0 : ℤ → String → Except Unit RecoveryScore := fun d s =>
  if d = 1 then .error () else .ok (get_recovery_score s none none none none)

/-- Witness for C10: over the two-day range starting at 0, day 0's failed
verdict is replaced by GREEN and still yields a score, while day 1's
failed scorer yields a null column; both dates appear in order. -/
theorem history_isolation_wit :
    (get_recovery_history_data mo0 so0 0 2).dates = [0, 1] ∧
    (get_recovery_history_data mo0 so0 0 2).recovery_score =
      [some (get_recovery_score "GREEN" none none none none).score, none] ∧
    histStatus mo0 0 = "GREEN" := by
  have h := history_isolation_spec mo0 so0 0 2
  have hd : (get_recovery_history_data mo0 so0 0 2).dates = [0, 1] := by
    rw [h.1.1]
    simp [List.range_succ]
  refine ⟨hd, ?_, h.2.1 0 () rfl⟩
  rw [h.1.2.1, hd]
  simp [histCols, histStatus, mo0, so0]

end TreeHealth
